import Mathlib

/-!
Verification development for the `classificatore-voci` repository.

The visible source is a React client (`VoiceClassifierApp.jsx`, `VoiceLab.jsx`,
`ProjectManager.jsx`).  Its state updates are pure functional transformations
(`setState(prev => ...)`), embedded here as Lean functions.  JavaScript objects
used as string-keyed dictionaries are embedded as association lists; JavaScript
numbers are embedded as rationals (the quantities involved are exact decimal
literals and `Math.random()` draws, for which `ℚ` is the exact model of the
intervals the claims speak about).

The backend audio pipeline (`backend/audio_analyzer.py`, `backend/main.py`) is
referenced by the setup scripts but not present in the visible source; the few
definitions that depend on it are modelled from the specification and marked
`Modelled from the spec:` in their doc comments.
-/

/-- JavaScript object key list (`Object.keys`) for an association-list model. -/
def jsKeys {α : Type} (obj : List (String × α)) : List String :=
  obj.map Prod.fst

/-- JavaScript property read `obj[k]`, `none` when the key is absent. -/
def jsFind? {α : Type} : List (String × α) → String → Option α
  | [], _ => none
  | p :: rest, k => if p.1 = k then some p.2 else jsFind? rest k

/-- JavaScript property read `obj[k]` with a default for an absent key.  Every
call site in the embedded components passes one of the four element keys, which
are present from initialization on, so the default is never consulted there. -/
def jsGetD {α : Type} (obj : List (String × α)) (k : String) (d : α) : α :=
  (jsFind? obj k).getD d

/-- JavaScript object spread update `{...obj, [k]: v}`: replaces the value at
the first occurrence of `k`, keeping key order; appends the key when absent. -/
def jsSet {α : Type} : List (String × α) → String → α → List (String × α)
  | [], k, v => [(k, v)]
  | p :: rest, k, v => if p.1 = k then (k, v) :: rest else p :: jsSet rest k v

theorem jsFind?_jsSet_self {α : Type} (obj : List (String × α)) (k : String) (v : α) :
    jsFind? (jsSet obj k v) k = some v := by
  induction obj with
  | nil => simp [jsSet, jsFind?]
  | cons p rest ih =>
    by_cases hp : p.1 = k
    · simp [jsSet, hp, jsFind?]
    · simpa [jsSet, hp, jsFind?] using ih

theorem jsFind?_jsSet_ne {α : Type} (obj : List (String × α)) (k k' : String) (v : α)
    (h : k' ≠ k) : jsFind? (jsSet obj k v) k' = jsFind? obj k' := by
  induction obj with
  | nil => simp [jsSet, jsFind?, Ne.symm h]
  | cons p rest ih =>
    by_cases hp : p.1 = k
    · simp [jsSet, jsFind?, hp, Ne.symm h]
    · by_cases hp' : p.1 = k'
      · simp [jsSet, jsFind?, hp, hp', h, Ne.symm h]
      · simpa [jsSet, jsFind?, hp, hp'] using ih

theorem jsKeys_jsSet {α : Type} (obj : List (String × α)) (k : String) (v : α) :
    k ∈ jsKeys obj → jsKeys (jsSet obj k v) = jsKeys obj := by
  induction obj with
  | nil => intro h; cases h
  | cons p rest ih =>
    intro h
    by_cases hp : p.1 = k
    · simp [jsSet, hp, jsKeys]
    · have hmem : k ∈ jsKeys rest := by
        rcases (by simpa [jsKeys] using h : k = p.1 ∨ k ∈ jsKeys rest) with h1 | h2
        · exact absurd h1.symm hp
        · exact h2
      have hstep : jsSet (p :: rest) k v = p :: jsSet rest k v := by
        simp [jsSet, hp]
      rw [hstep]
      show p.1 :: jsKeys (jsSet rest k v) = p.1 :: jsKeys rest
      rw [ih hmem]

/-- The four element classes, in the order of the source arrays
(`elementColors`, and `elements` inside `classifyNewAudio`). -/
def elementsArr : List String := ["aria", "acqua", "terra", "fuoco"]

/-- Metadata of an uploaded browser `File` object (name, size). -/
structure FileMeta where
  name : String
  size : Nat
  deriving DecidableEq, Repr

/-- File record stored by `VoiceClassifierApp.handleDatasetUpload`:
`{ name, size, element }`. -/
structure AppFile where
  name : String
  size : Nat
  element : String
  deriving DecidableEq, Repr

/-- Initial `audioFiles` state of `VoiceClassifierApp`:
`{ aria: [], acqua: [], terra: [], fuoco: [] }`. -/
def initialAudioFilesApp : List (String × List AppFile) :=
  [("aria", []), ("acqua", []), ("terra", []), ("fuoco", [])]

/-- `handleDatasetUpload` from `VoiceClassifierApp.jsx` (lines 33-44): maps the
chosen files to `{name, size, element}` records and appends them to the chosen
element class of `audioFiles`. -/
def handleDatasetUpload (element : String) (files : List FileMeta)
    (prev : List (String × List AppFile)) : List (String × List AppFile) :=
  jsSet prev element
    (jsGetD prev element [] ++ files.map (fun f => ⟨f.name, f.size, element⟩))

/-- `classifyNewAudio` from `VoiceClassifierApp.jsx` (lines 54-62).  The two
`Math.random()` draws are explicit arguments `rCls` and `rConf` (each in
`[0,1)` at runtime).  The uploaded file is recorded in component state but the
computed prediction ignores it entirely: the predicted element is
`elements[Math.floor(rCls*4)]` and the confidence is `rConf*0.1 + 0.9`. -/
def classifyNewAudio (file : String) (rCls rConf : ℚ) : String × ℚ :=
  (elementsArr.getD (Int.toNat ⌊rCls * 4⌋) "undefined", rConf * (1/10) + 9/10)

/-- The accuracy value produced by the mocked training in
`VoiceClassifierApp.startTraining` (line 50): `Math.random() * 0.05 + 0.95`. -/
def mockAccuracy (r : ℚ) : ℚ := r * (5/100) + 95/100

/-- The project snapshot built by `VoiceClassifierApp.saveProject`
(lines 98-108): `{ name, datasets: audioFiles, accuracy, timestamp }`. -/
structure ProjectData where
  name : String
  datasets : List (String × List AppFile)
  accuracy : Option ℚ
  timestamp : String
  deriving DecidableEq, Repr

/-- Component state of `VoiceClassifierApp` (the `useState` hooks,
lines 5-17). -/
structure AppState where
  currentProject : String
  datasets : List ProjectData
  isTraining : Bool
  modelAccuracy : Option ℚ
  audioFiles : List (String × List AppFile)
  newAudioForClassification : Option String
  prediction : Option String
  confidence : Option ℚ
  deriving DecidableEq, Repr

/-- Initial state of `VoiceClassifierApp`. -/
def initialAppState : AppState :=
  { currentProject := "Progetto 1"
    datasets := []
    isTraining := false
    modelAccuracy := none
    audioFiles := initialAudioFilesApp
    newAudioForClassification := none
    prediction := none
    confidence := none }

/-- Disabled condition of the `Avvia Training` button (line 228):
`isTraining || Object.values(audioFiles).every(arr => arr.length === 0)`. -/
def trainButtonDisabled (s : AppState) : Bool :=
  s.isTraining || s.audioFiles.all (fun p => p.2.length == 0)

/-- User-interface events of `VoiceClassifierApp`.  Each `Math.random()` draw
of the mocked backend appears as an explicit payload. -/
inductive AppEvent
  | clickTraining
  | trainingDone (r : ℚ)
  | uploadEvt (element : String) (files : List FileMeta)
  | classifyEvt (file : String) (rCls rConf : ℚ)
  | saveEvt (timestamp : String)
  | renameEvt (name : String)
  deriving DecidableEq

/-- Step relation of the `VoiceClassifierApp` user interface.  Guards come
from the `disabled` attributes and the handler bodies:
the training button is clickable only when `trainButtonDisabled` is `false`
(line 228); the training timeout fires only while `isTraining`; uploads exist
only for the four element panels generated from `Object.entries(elementColors)`
(line 152); the classification input is disabled until `modelAccuracy` is set
(line 294); `Math.random()` draws lie in `[0,1)`. -/
inductive Step : AppState → AppEvent → AppState → Prop
  | clickTraining (s : AppState) (h : trainButtonDisabled s = false) :
      Step s AppEvent.clickTraining { s with isTraining := true }
  | trainingDone (s : AppState) (r : ℚ) (hT : s.isTraining = true)
      (h0 : 0 ≤ r) (h1 : r < 1) :
      Step s (AppEvent.trainingDone r)
        { s with isTraining := false, modelAccuracy := some (mockAccuracy r) }
  | uploadEvt (s : AppState) (element : String) (files : List FileMeta)
      (hel : element ∈ elementsArr) :
      Step s (AppEvent.uploadEvt element files)
        { s with audioFiles := handleDatasetUpload element files s.audioFiles }
  | classifyEvt (s : AppState) (file : String) (rCls rConf : ℚ)
      (hm : s.modelAccuracy.isSome = true)
      (h0 : 0 ≤ rCls) (h1 : rCls < 1) (h2 : 0 ≤ rConf) (h3 : rConf < 1) :
      Step s (AppEvent.classifyEvt file rCls rConf)
        { s with newAudioForClassification := some file,
                 prediction := some (classifyNewAudio file rCls rConf).1,
                 confidence := some (classifyNewAudio file rCls rConf).2 }
  | saveEvt (s : AppState) (ts : String) :
      Step s (AppEvent.saveEvt ts)
        { s with datasets :=
            s.datasets ++ [⟨s.currentProject, s.audioFiles, s.modelAccuracy, ts⟩] }
  | renameEvt (s : AppState) (name : String) :
      Step s (AppEvent.renameEvt name) { s with currentProject := name }

theorem classify_fst_mem (file : String) (rCls rConf : ℚ)
    (h0 : 0 ≤ rCls) (h1 : rCls < 1) :
    (classifyNewAudio file rCls rConf).1 ∈ elementsArr := by
  have h4 : (0:ℚ) ≤ rCls * 4 := by linarith
  have h5 : rCls * 4 < 4 := by linarith
  have hfl : (0:ℤ) ≤ ⌊rCls * 4⌋ := Int.floor_nonneg.mpr h4
  have hfu : ⌊rCls * 4⌋ < 4 := by
    have := Int.floor_lt.mpr (by exact_mod_cast h5 : rCls * 4 < ((4:ℤ):ℚ))
    exact this
  have hidx : Int.toNat ⌊rCls * 4⌋ < 4 := by omega
  show elementsArr.getD (Int.toNat ⌊rCls * 4⌋) "undefined" ∈ elementsArr
  have : Int.toNat ⌊rCls * 4⌋ = 0 ∨ Int.toNat ⌊rCls * 4⌋ = 1 ∨
      Int.toNat ⌊rCls * 4⌋ = 2 ∨ Int.toNat ⌊rCls * 4⌋ = 3 := by omega
  rcases this with h | h | h | h <;> rw [h] <;> decide

theorem classify_snd_bounds (file : String) (rCls rConf : ℚ)
    (h2 : 0 ≤ rConf) (h3 : rConf < 1) :
    9/10 ≤ (classifyNewAudio file rCls rConf).2 ∧
      (classifyNewAudio file rCls rConf).2 < 1 := by
  unfold classifyNewAudio
  constructor <;> simp only <;> linarith

/-- File record held in `VoiceLab` state (`result.files` entries from the
upload endpoint): `{ filename, size }`. -/
structure LabFile where
  filename : String
  size : Nat
  deriving DecidableEq, Repr

/-- The `audioFiles` dictionary of `VoiceLab`, class name to file list. -/
abbrev LabObj := List (String × List LabFile)

/-- Initial `audioFiles` state of `VoiceLab` (lines 8-13). -/
def initialAudioFilesLab : LabObj :=
  [("aria", []), ("acqua", []), ("terra", []), ("fuoco", [])]

/-- State update of `VoiceLab.uploadFiles` (lines 39-62): appends the
`result.files` returned by `POST /upload-audio/{element}` to the chosen
element class. -/
def uploadFiles (element : String) (resultFiles : List LabFile) (prev : LabObj) : LabObj :=
  jsSet prev element (jsGetD prev element [] ++ resultFiles)

/-- State update of `VoiceLab.removeFile` (lines 93-108): when the
`DELETE /remove-audio` response is `ok`, keeps only the records of the chosen
element class whose `filename` differs from the removed one
(`prev[element].filter(f => f.filename !== filename)`); otherwise the state is
left unchanged. -/
def removeFile (filename element : String) (respOk : Bool) (prev : LabObj) : LabObj :=
  if respOk then
    jsSet prev element
      ((jsGetD prev element []).filter (fun f => !(f.filename == filename)))
  else prev

/-- One dataset operation of the `VoiceLab` user interface: an upload into an
element class, or a removal of a filename from an element class. -/
inductive LabOp
  | upload (element : String) (files : List LabFile)
  | remove (filename element : String) (respOk : Bool)
  deriving DecidableEq, Repr

/-- The element class an operation addresses.  The `VoiceLab` interface only
issues operations for the four element panels generated from
`Object.entries(elementColors)`. -/
def labOpElement : LabOp → String
  | .upload e _ => e
  | .remove _ e _ => e

/-- Apply one `VoiceLab` dataset operation to the `audioFiles` state. -/
def applyLabOp : LabOp → LabObj → LabObj
  | .upload e files, st => uploadFiles e files st
  | .remove fn e ok, st => removeFile fn e ok st

/-- Run a sequence of `VoiceLab` dataset operations from a given state. -/
def runLabOps (ops : List LabOp) (st : LabObj) : LabObj :=
  ops.foldl (fun s op => applyLabOp op s) st

/-- The classes whose file list contains a record with the given filename. -/
def classesContaining (obj : LabObj) (fname : String) : List String :=
  (obj.filter (fun p => p.2.any (fun f => f.filename == fname))).map Prod.fst

theorem jsKeys_applyLabOp (op : LabOp) (st : LabObj)
    (h : labOpElement op ∈ jsKeys st) : jsKeys (applyLabOp op st) = jsKeys st := by
  cases op with
  | upload e files => exact jsKeys_jsSet st e _ h
  | remove fn e ok =>
    cases ok with
    | false => rfl
    | true => exact jsKeys_jsSet st e _ h

theorem jsKeys_runLabOps (ops : List LabOp) :
    ∀ st : LabObj, (∀ op ∈ ops, labOpElement op ∈ jsKeys st) →
      jsKeys (runLabOps ops st) = jsKeys st := by
  induction ops with
  | nil => intro st _; rfl
  | cons op rest ih =>
    intro st h
    have h1 : labOpElement op ∈ jsKeys st := h op (List.mem_cons_self op rest)
    have hkeys : jsKeys (applyLabOp op st) = jsKeys st := jsKeys_applyLabOp op st h1
    show jsKeys (runLabOps rest (applyLabOp op st)) = jsKeys st
    rw [ih (applyLabOp op st) (by
      intro o ho
      rw [hkeys]
      exact h o (List.mem_cons_of_mem op ho)), hkeys]

theorem length_filter_not_add_countP {α : Type} (p : α → Bool) (l : List α) :
    (l.filter (fun a => !(p a))).length + l.countP p = l.length := by
  induction l with
  | nil => rfl
  | cons a t ih =>
    by_cases hpa : p a = true
    · simp [List.filter_cons, List.countP_cons, hpa]
      omega
    · have hpa' : p a = false := by revert hpa; cases p a <;> simp
      simp [List.filter_cons, List.countP_cons, hpa']
      omega

/-- An extracted feature vector: ordered mapping from feature name to value
(spec section 3, `FeatureVector`). -/
abbrev FeatureVec := List (String × ℚ)

/-- Modelled from the spec: error taxonomy of the backend Classifier Trainer
(`backend/audio_analyzer.py` / `backend/main.py`, referenced by the setup
scripts but absent from the visible source), spec sections 4.2-4.3 and 7. -/
inductive TrainError
  | insufficientData
  | degenerateLabel
  deriving DecidableEq, Repr

/-- Modelled from the spec: the trained-model artifact (spec section 3,
`TrainedModel`): fitted parameters summarized by the feature-name ordering and
the validation accuracy. -/
structure TrainedModel where
  featureOrder : List String
  accuracy : ℚ
  deriving DecidableEq, Repr

/-- Modelled from the spec: the documented minimum number of samples per class
required for training (spec section 4.2, "e.g., 3"). -/
def minSamplesPerClass : Nat := 3

/-- Modelled from the spec: `train` of the backend Classifier Trainer (absent
from the visible source), spec section 4.3.  The dataset maps each class name
to its list of extracted feature vectors.  Training refuses with
`InsufficientDataError` when any class has fewer than the minimum number of
samples, and with `DegenerateLabelError` when fewer than two classes have any
samples; otherwise it fits a model.  The fitting algorithm itself is left as
the parameter `fit`: the refusal behaviour holds for every choice of it. -/
def train (fit : List (String × List FeatureVec) → TrainedModel)
    (dataset : List (String × List FeatureVec)) : Except TrainError TrainedModel :=
  if dataset.any (fun p => decide (p.2.length < minSamplesPerClass)) then
    Except.error TrainError.insufficientData
  else if decide ((dataset.filter (fun p => decide (0 < p.2.length))).length < 2) then
    Except.error TrainError.degenerateLabel
  else
    Except.ok (fit dataset)

/-- A recommendation entry rendered by the `VoiceLab` dashboard
(`{ priority, message }`). -/
structure Recommendation where
  priority : String
  message : String
  deriving DecidableEq, Repr

/-- Aggregates of a completed dataset analysis, as consumed by the `VoiceLab`
dashboard (`summary`, `element_profiles`, `chart_data`, `recommendations`). -/
structure AnalysisAggregates where
  elements_count : List (String × Nat)
  top_distinctive_features : List (String × ℚ)
  avg_durations : List (String × ℚ)
  chart_data : List (String × List (String × List ℚ))
  recommendations : List Recommendation
  deriving DecidableEq, Repr

/-- The payload of `GET /dashboard-data`: a status string plus, when ready,
the analysis aggregates. -/
structure DashboardPayload where
  status : String
  aggregates : Option AnalysisAggregates
  deriving DecidableEq, Repr

/-- Modelled from the spec: `GET /dashboard-data` (backend, absent from the
visible source), spec section 6: it "fails gracefully with a not-ready status
if no analysis has run yet" — the request always succeeds, returning a payload
whose status is `ready` exactly when a completed analysis exists. -/
def getDashboardData (lastAnalysis : Option AnalysisAggregates) : DashboardPayload :=
  match lastAnalysis with
  | none => { status := "not_ready", aggregates := none }
  | some a => { status := "ready", aggregates := some a }

/-- The two alternatives of the main `VoiceLab` panel: the chart dashboard, or
the initial-state placeholder ("Inizia l'Analisi"). -/
inductive MainPanel
  | dashboardPanel
  | initialPlaceholder
  deriving DecidableEq, Repr

/-- The render branch of `VoiceLab.jsx` (lines 374 and 474-503):
`dashboardData && dashboardData.status === 'ready'` selects the chart
dashboard, anything else the initial-state placeholder. -/
def renderMainPanel (dashboardData : Option DashboardPayload) : MainPanel :=
  match dashboardData with
  | some d => if d.status = "ready" then MainPanel.dashboardPanel else MainPanel.initialPlaceholder
  | none => MainPanel.initialPlaceholder

/-- A state of `VoiceClassifierApp` whose training dataset holds the sample
`voce.wav` under class `fuoco`: the initial state after one upload. -/
def fuocoState : AppState :=
  { initialAppState with
      audioFiles := handleDatasetUpload "fuoco" [⟨"voce.wav", 100⟩] initialAppState.audioFiles }

/-- C1 counterexample: in a state whose `fuoco` training class contains the
sample `voce.wav`, classifying that very sample with random draws (0, 0) —
both legitimate `Math.random()` values — yields predicted class `aria`, not
`fuoco`, and confidence exactly 0.9, not strictly greater than 0.9. -/
theorem classify_fuoco_sample_cex :
    ((0:ℚ) ≤ 0 ∧ (0:ℚ) < 1)
    ∧ (jsGetD fuocoState.audioFiles "fuoco" []).any (fun f => f.name == "voce.wav") = true
    ∧ (classifyNewAudio "voce.wav" 0 0).1 = "aria"
    ∧ (classifyNewAudio "voce.wav" 0 0).1 ≠ "fuoco"
    ∧ ¬(9/10 < (classifyNewAudio "voce.wav" 0 0).2) := by
  have h1 : classifyNewAudio "voce.wav" 0 0 = ("aria", 9/10) := by
    unfold classifyNewAudio
    norm_num [elementsArr, List.getD]
  refine ⟨⟨le_refl 0, by norm_num⟩, by decide, ?_, ?_, ?_⟩
  · rw [h1]
  · rw [h1]; decide
  · rw [h1]; norm_num

/-- C1 (amended): the visible predict operation (`classifyNewAudio`) ignores
the uploaded sample entirely — even for a sample identical to a `fuoco`
training sample it returns whatever element the random draw selects, one of
the four classes, with confidence in [0.9, 1); neither the class `fuoco` nor
a confidence strictly above 0.9 is guaranteed. -/
theorem classify_ignores_sample (f g : String) (rCls rConf : ℚ)
    (h0 : 0 ≤ rCls) (h1 : rCls < 1) (h2 : 0 ≤ rConf) (h3 : rConf < 1) :
    classifyNewAudio f rCls rConf = classifyNewAudio g rCls rConf
    ∧ (classifyNewAudio f rCls rConf).1 ∈ elementsArr
    ∧ 9/10 ≤ (classifyNewAudio f rCls rConf).2
    ∧ (classifyNewAudio f rCls rConf).2 < 1 :=
  ⟨rfl, classify_fst_mem f rCls rConf h0 h1, classify_snd_bounds f rCls rConf h2 h3⟩

/-- Witness for `classify_ignores_sample` at the sample `voce.wav` (also
present in `fuocoState`), a second sample name, and draws (1/2, 1/2). -/
theorem classify_ignores_sample_wit :
    ((0:ℚ) ≤ 1/2 ∧ (1/2:ℚ) < 1)
    ∧ (classifyNewAudio "voce.wav" (1/2) (1/2) = classifyNewAudio "altro.wav" (1/2) (1/2)
      ∧ (classifyNewAudio "voce.wav" (1/2) (1/2)).1 ∈ elementsArr
      ∧ 9/10 ≤ (classifyNewAudio "voce.wav" (1/2) (1/2)).2
      ∧ (classifyNewAudio "voce.wav" (1/2) (1/2)).2 < 1) :=
  ⟨⟨by norm_num, by norm_num⟩,
    classify_ignores_sample "voce.wav" "altro.wav" (1/2) (1/2)
      (by norm_num) (by norm_num) (by norm_num) (by norm_num)⟩

/-- C2 counterexample: the visible classification pipeline is not
deterministic across runs — two runs on the same input `voce.wav`, with the
random draws (0, 0) on the first run and (1/2, 1/2) on the second (all
legitimate `Math.random()` values), produce different results. -/
theorem classify_two_runs_differ_cex :
    ((0:ℚ) ≤ 0 ∧ (0:ℚ) < 1 ∧ (0:ℚ) ≤ 1/2 ∧ (1/2:ℚ) < 1)
    ∧ classifyNewAudio "voce.wav" 0 0 ≠ classifyNewAudio "voce.wav" (1/2) (1/2) := by
  have h1 : classifyNewAudio "voce.wav" 0 0 = ("aria", 9/10) := by
    unfold classifyNewAudio
    norm_num [elementsArr, List.getD]
  have h2 : classifyNewAudio "voce.wav" (1/2) (1/2) = ("terra", 19/20) := by
    unfold classifyNewAudio
    refine Prod.ext ?_ (by norm_num)
    have hfl : ⌊(1/2 : ℚ) * 4⌋ = 2 := by norm_num
    simp only [hfl]
    decide
  refine ⟨⟨le_refl 0, by norm_num, by norm_num, by norm_num⟩, ?_⟩
  intro h
  rw [h1, h2] at h
  exact absurd (congrArg Prod.fst h) (by decide)

/-- C2 (amended): the visible pipeline is deterministic only relative to its
random draws — two runs of `classifyNewAudio` on the same input yield exactly
equal results whenever the underlying `Math.random()` draws coincide. -/
theorem classify_deterministic_given_draws (file : String) (r1 r2 r1' r2' : ℚ)
    (hA : r1 = r1') (hB : r2 = r2') :
    classifyNewAudio file r1 r2 = classifyNewAudio file r1' r2' := by
  rw [hA, hB]

/-- Witness for `classify_deterministic_given_draws` at the sample `voce.wav`
and equal draws (1/3, 2/3) on both runs. -/
theorem classify_deterministic_given_draws_wit :
    classifyNewAudio "voce.wav" (1/3) (2/3) = classifyNewAudio "voce.wav" (1/3) (2/3) :=
  classify_deterministic_given_draws "voce.wav" (1/3) (2/3) (1/3) (2/3) rfl rfl

/-- C9: every prediction produced by the visible classifier carries a class
label (one of the four elements) and a confidence value lying in the closed
interval [0,1] — in fact in [0.9, 1). -/
theorem prediction_confidence_in_unit_interval (file : String) (rCls rConf : ℚ)
    (h0 : 0 ≤ rCls) (h1 : rCls < 1) (h2 : 0 ≤ rConf) (h3 : rConf < 1) :
    (classifyNewAudio file rCls rConf).1 ∈ elementsArr
    ∧ 0 ≤ (classifyNewAudio file rCls rConf).2
    ∧ (classifyNewAudio file rCls rConf).2 ≤ 1 := by
  obtain ⟨hl, hu⟩ := classify_snd_bounds file rCls rConf h2 h3
  exact ⟨classify_fst_mem file rCls rConf h0 h1, by linarith, by linarith⟩

/-- Witness for `prediction_confidence_in_unit_interval` at the sample
`campione.wav` and draws (3/4, 1/4). -/
theorem prediction_confidence_in_unit_interval_wit :
    ((0:ℚ) ≤ 3/4 ∧ (3/4:ℚ) < 1 ∧ (0:ℚ) ≤ 1/4 ∧ (1/4:ℚ) < 1)
    ∧ ((classifyNewAudio "campione.wav" (3/4) (1/4)).1 ∈ elementsArr
      ∧ 0 ≤ (classifyNewAudio "campione.wav" (3/4) (1/4)).2
      ∧ (classifyNewAudio "campione.wav" (3/4) (1/4)).2 ≤ 1) :=
  ⟨⟨by norm_num, by norm_num, by norm_num, by norm_num⟩,
    prediction_confidence_in_unit_interval "campione.wav" (3/4) (1/4)
      (by norm_num) (by norm_num) (by norm_num) (by norm_num)⟩

/-- C5: at most one training run is in flight — in the `VoiceClassifierApp`
step relation, a training-start event is possible only from a state in which
no training is in progress (the button is disabled while `isTraining`), so a
new training can never be started while one is already running. -/
theorem no_training_start_while_training (s s' : AppState)
    (h : Step s AppEvent.clickTraining s') : s.isTraining = false := by
  cases h with
  | clickTraining hg =>
    unfold trainButtonDisabled at hg
    exact (Bool.or_eq_false_iff.mp hg).1

/-- Witness for `no_training_start_while_training`: from `fuocoState` (one
`fuoco` file uploaded, not training) the start-training step is enabled, and
the theorem yields that its source state is not training. -/
theorem no_training_start_while_training_wit :
    Step fuocoState AppEvent.clickTraining { fuocoState with isTraining := true }
    ∧ fuocoState.isTraining = false :=
  have hg : trainButtonDisabled fuocoState = false := by decide
  ⟨Step.clickTraining fuocoState hg,
    no_training_start_while_training fuocoState { fuocoState with isTraining := true }
      (Step.clickTraining fuocoState hg)⟩

/-- C6: no step of the interface mutates an already-saved project snapshot:
every saved snapshot (with its recorded accuracy and dataset) survives every
step unchanged; the training-start step changes neither the snapshot list nor
the current model accuracy (an in-progress training leaves the previous model
intact), and the training-completion step leaves the snapshot list unchanged
(retraining supersedes, never mutates). -/
theorem training_preserves_saved_snapshots (s : AppState) (e : AppEvent) (s' : AppState)
    (h : Step s e s') :
    (∀ p, p ∈ s.datasets → p ∈ s'.datasets)
    ∧ (e = AppEvent.clickTraining → s'.datasets = s.datasets ∧ s'.modelAccuracy = s.modelAccuracy)
    ∧ (∀ r, e = AppEvent.trainingDone r → s'.datasets = s.datasets) := by
  cases h with
  | clickTraining hg =>
    exact ⟨fun p hp => hp, fun _ => ⟨rfl, rfl⟩, fun r hr => by simp at hr⟩
  | trainingDone r hT h0 h1 =>
    exact ⟨fun p hp => hp, fun he => by simp at he, fun r' _ => rfl⟩
  | uploadEvt element files hel =>
    exact ⟨fun p hp => hp, fun he => by simp at he, fun r' hr => by simp at hr⟩
  | classifyEvt file rCls rConf hm h0 h1 h2 h3 =>
    exact ⟨fun p hp => hp, fun he => by simp at he, fun r' hr => by simp at hr⟩
  | saveEvt ts =>
    exact ⟨fun p hp => List.mem_append_left _ hp, fun he => by simp at he,
      fun r' hr => by simp at hr⟩
  | renameEvt name =>
    exact ⟨fun p hp => hp, fun he => by simp at he, fun r' hr => by simp at hr⟩

/-- A saved project snapshot, as produced by `saveProject` in `fuocoState`
after a completed training. -/
def savedSnapshot : ProjectData :=
  ⟨"Progetto 1", fuocoState.audioFiles, some (19/20), "2024-01-01T00:00:00.000Z"⟩

/-- A state holding one saved snapshot, with another training in progress. -/
def savedState : AppState :=
  { fuocoState with datasets := [savedSnapshot], isTraining := true }

/-- Witness for `training_preserves_saved_snapshots`: completing a retraining
from `savedState` keeps the saved snapshot in the snapshot list. -/
theorem training_preserves_saved_snapshots_wit :
    savedSnapshot ∈ savedState.datasets
    ∧ savedSnapshot ∈ ({ savedState with
        isTraining := false
        modelAccuracy := some (mockAccuracy (1/2)) } : AppState).datasets :=
  have hstep : Step savedState (AppEvent.trainingDone (1/2))
      { savedState with isTraining := false, modelAccuracy := some (mockAccuracy (1/2)) } :=
    Step.trainingDone savedState (1/2) rfl (by norm_num) (by norm_num)
  ⟨List.mem_singleton.mpr rfl,
    (training_preserves_saved_snapshots savedState (AppEvent.trainingDone (1/2)) _ hstep).1
      savedSnapshot (List.mem_singleton.mpr rfl)⟩

/-- C10: every training run in the visible client completes regardless of
dataset contents and reports a model accuracy in [0.95, 1): from any state
with a training in progress, for every random draw, the completion step
exists and the accuracy it records lies in that half-open interval, meeting
the 95 percent placeholder floor. -/
theorem mock_training_accuracy_floor (s : AppState) (r : ℚ)
    (hT : s.isTraining = true) (h0 : 0 ≤ r) (h1 : r < 1) :
    ∃ s', Step s (AppEvent.trainingDone r) s'
      ∧ s'.modelAccuracy = some (mockAccuracy r)
      ∧ 95/100 ≤ mockAccuracy r ∧ mockAccuracy r < 1 := by
  refine ⟨_, Step.trainingDone s r hT h0 h1, rfl, ?_, ?_⟩ <;>
    unfold mockAccuracy <;> linarith

/-- Witness for `mock_training_accuracy_floor` at `savedState` and draw 0. -/
theorem mock_training_accuracy_floor_wit :
    (savedState.isTraining = true ∧ (0:ℚ) ≤ 0 ∧ (0:ℚ) < 1)
    ∧ ∃ s', Step savedState (AppEvent.trainingDone 0) s'
      ∧ s'.modelAccuracy = some (mockAccuracy 0)
      ∧ 95/100 ≤ mockAccuracy 0 ∧ mockAccuracy 0 < 1 :=
  ⟨⟨rfl, le_refl 0, by norm_num⟩,
    mock_training_accuracy_floor savedState 0 rfl (le_refl 0) (by norm_num)⟩

/-- C3: for every dataset in which some class has fewer than the documented
minimum number of samples, the train operation fails with
`InsufficientDataError` and no trained model (no accuracy result) is
produced — for every choice of the fitting algorithm. -/
theorem train_insufficient_data_refuses
    (fit : List (String × List FeatureVec) → TrainedModel)
    (dataset : List (String × List FeatureVec))
    (h : ∃ p ∈ dataset, p.2.length < minSamplesPerClass) :
    train fit dataset = Except.error TrainError.insufficientData
    ∧ ∀ m, train fit dataset ≠ Except.ok m := by
  have hany : dataset.any (fun p => decide (p.2.length < minSamplesPerClass)) = true := by
    rcases h with ⟨p, hp, hlen⟩
    exact List.any_eq_true.mpr ⟨p, hp, by simpa using hlen⟩
  have htr : train fit dataset = Except.error TrainError.insufficientData := by
    unfold train
    rw [if_pos hany]
  exact ⟨htr, fun m hm => by rw [htr] at hm; cases hm⟩

/-- The spec's end-to-end scenario dataset: only 2 samples total across the
four classes. -/
def cexDataset : List (String × List FeatureVec) :=
  [("aria", [[("pitch_mean", 180)]]), ("acqua", [[("pitch_mean", 90)]]),
   ("terra", []), ("fuoco", [])]

/-- Witness for `train_insufficient_data_refuses` on `cexDataset` and a
concrete fitting algorithm. -/
theorem train_insufficient_data_refuses_wit :
    (∃ p ∈ cexDataset, p.2.length < minSamplesPerClass)
    ∧ train (fun _ => ⟨["pitch_mean"], 1⟩) cexDataset
        = Except.error TrainError.insufficientData :=
  ⟨by decide,
    (train_insufficient_data_refuses (fun _ => ⟨["pitch_mean"], 1⟩) cexDataset (by decide)).1⟩

/-- C7: when no dataset analysis has run yet, the dashboard-data request does
not fail: it returns a payload whose status is `not_ready` (in particular not
`ready`), and the `VoiceLab` client then renders the initial-state
placeholder instead of the chart aggregates. -/
theorem dashboard_not_ready_placeholder (lastAnalysis : Option AnalysisAggregates)
    (h : lastAnalysis = none) :
    (getDashboardData lastAnalysis).status = "not_ready"
    ∧ (getDashboardData lastAnalysis).status ≠ "ready"
    ∧ renderMainPanel (some (getDashboardData lastAnalysis)) = MainPanel.initialPlaceholder := by
  subst h
  exact ⟨rfl, by decide, by decide⟩

/-- Witness for `dashboard_not_ready_placeholder` in the no-analysis state. -/
theorem dashboard_not_ready_placeholder_wit :
    ((none : Option AnalysisAggregates) = none)
    ∧ ((getDashboardData none).status = "not_ready"
      ∧ (getDashboardData none).status ≠ "ready"
      ∧ renderMainPanel (some (getDashboardData none)) = MainPanel.initialPlaceholder) :=
  ⟨rfl, dashboard_not_ready_placeholder none rfl⟩

/-- The operation sequence that uploads a file named `x.wav` first to class
`aria` and then to class `acqua`. -/
def twoClassOps : List LabOp :=
  [LabOp.upload "aria" [⟨"x.wav", 5⟩], LabOp.upload "acqua" [⟨"x.wav", 5⟩]]

/-- C4 counterexample: after uploading `x.wav` to `aria` and then to `acqua`
(both legal interface operations), the sample appears in two classes, so the
at-most-one-class half of the invariant fails on the code. -/
theorem dataset_sample_in_two_classes_cex :
    classesContaining (runLabOps twoClassOps initialAudioFilesLab) "x.wav" = ["aria", "acqua"]
    ∧ ¬((classesContaining (runLabOps twoClassOps initialAudioFilesLab) "x.wav").length ≤ 1) := by
  decide

/-- C4 (amended): for every sequence of upload and remove operations issued
by the interface (each addressing one of the four element classes), the class
set of the dataset remains exactly aria, acqua, terra, fuoco; a sample,
however, may appear in more than one class. -/
theorem dataset_class_set_invariant (ops : List LabOp)
    (h : ∀ op ∈ ops, labOpElement op ∈ elementsArr) :
    jsKeys (runLabOps ops initialAudioFilesLab) = elementsArr :=
  (jsKeys_runLabOps ops initialAudioFilesLab (fun op hop => h op hop)).trans rfl

/-- A legal interface operation sequence: one upload into `terra`, then a
successful removal of the uploaded file. -/
def demoOps : List LabOp :=
  [LabOp.upload "terra" [⟨"suono.wav", 7⟩], LabOp.remove "suono.wav" "terra" true]

/-- Witness for `dataset_class_set_invariant` on `demoOps`. -/
theorem dataset_class_set_invariant_wit :
    (∀ op ∈ demoOps, labOpElement op ∈ elementsArr)
    ∧ jsKeys (runLabOps demoOps initialAudioFilesLab) = elementsArr :=
  ⟨by decide, dataset_class_set_invariant demoOps (by decide)⟩

/-- A `VoiceLab` state whose `aria` list holds two records named `dup.wav`. -/
def dupState : LabObj :=
  uploadFiles "aria" [⟨"dup.wav", 1⟩, ⟨"dup.wav", 2⟩] initialAudioFilesLab

/-- C8 counterexample: when the `aria` list holds two records named
`dup.wav`, a successful remove of (`dup.wav`, `aria`) removes both — so the
operation does not remove exactly one sample with that filename. -/
theorem removeFile_removes_all_matches_cex :
    (jsGetD dupState "aria" []).length = 2
    ∧ (jsGetD (removeFile "dup.wav" "aria" true dupState) "aria" []).length = 0
    ∧ (jsGetD (removeFile "dup.wav" "aria" true dupState) "aria" []).length ≠
        (jsGetD dupState "aria" []).length - 1 := by
  decide

/-- C8 (amended): a successful remove operation removes from the addressed
class exactly the records carrying the removed filename, keeping the other
records in order — exactly one record when that filename occurs exactly once
in the class — and leaves the lists of all other classes unchanged. -/
theorem removeFile_filter_spec (prev : LabObj) (filename element : String) :
    jsGetD (removeFile filename element true prev) element []
      = (jsGetD prev element []).filter (fun f => !(f.filename == filename))
    ∧ (∀ k, k ≠ element →
        jsFind? (removeFile filename element true prev) k = jsFind? prev k)
    ∧ ((jsGetD prev element []).countP (fun f => f.filename == filename) = 1 →
        (jsGetD (removeFile filename element true prev) element []).length + 1
          = (jsGetD prev element []).length) := by
  have hrm : removeFile filename element true prev
      = jsSet prev element
          ((jsGetD prev element []).filter (fun f => !(f.filename == filename))) := rfl
  have h1 : jsGetD (removeFile filename element true prev) element []
      = (jsGetD prev element []).filter (fun f => !(f.filename == filename)) := by
    rw [hrm]
    unfold jsGetD
    rw [jsFind?_jsSet_self]
    rfl
  refine ⟨h1, ?_, ?_⟩
  · intro k hk
    rw [hrm]
    exact jsFind?_jsSet_ne prev element k _ hk
  · intro hcount
    rw [h1]
    have hlen := length_filter_not_add_countP
      (fun f => f.filename == filename) (jsGetD prev element [])
    omega

/-- A `VoiceLab` state whose `terra` list holds exactly one record named
`t.wav`. -/
def labPrev : LabObj := uploadFiles "terra" [⟨"t.wav", 3⟩] initialAudioFilesLab

/-- Witness for `removeFile_filter_spec` on `labPrev`, removing `t.wav` from
`terra` and checking class `aria` as an unaffected class. -/
theorem removeFile_filter_spec_wit :
    (jsGetD labPrev "terra" []).countP (fun f => f.filename == "t.wav") = 1
    ∧ jsGetD (removeFile "t.wav" "terra" true labPrev) "terra" []
        = (jsGetD labPrev "terra" []).filter (fun f => !(f.filename == "t.wav"))
    ∧ jsFind? (removeFile "t.wav" "terra" true labPrev) "aria" = jsFind? labPrev "aria"
    ∧ (jsGetD (removeFile "t.wav" "terra" true labPrev) "terra" []).length + 1
        = (jsGetD labPrev "terra" []).length :=
  ⟨by decide, (removeFile_filter_spec labPrev "t.wav" "terra").1,
    (removeFile_filter_spec labPrev "t.wav" "terra").2.1 "aria" (by decide),
    (removeFile_filter_spec labPrev "t.wav" "terra").2.2 (by decide)⟩
